import Mathlib

/-!
Verification development for the C++ code-generator core
(`code_generation` / `code_gen` packages).

The output sink is append-only: every write appends one `Chunk`
(indent level, text, end-of-line flag).  A rendering computation is
therefore fully described by the list of chunks it appends, together
with the Python exception it may raise; exceptions carry the chunks
written before the raise (they stay in the sink while the error
propagates).  This is the `Rendered` type below.
-/

/-- Python exceptions raised by the generator code. -/
inductive PyErr where
  | valueError (msg : String)
  | runtimeError (msg : String)
  | typeError
deriving DecidableEq, Repr

/-- One write performed through the writer: indent level (number of
layout indent units prepended), the text, and whether an end-of-line
symbol is appended.  `SourceFile.write` / `ANSICodeFormatter.line`. -/
structure Chunk where
  indent : Nat
  text : String
  endline : Bool
deriving DecidableEq, Repr

/-- The chunks appended to the sink by (part of) a rendering. -/
abbrev Delta := List Chunk

/-- Outcome of a rendering step over the append-only sink: either it
returns normally having appended `d`, or it raises `e` having appended
`d` before the raise. -/
inductive Rendered where
  | ok (d : Delta)
  | raised (e : PyErr) (d : Delta)
deriving DecidableEq, Repr

namespace Rendered

/-- Sequencing of two rendering steps: a raise in the first skips the
second; a raise in the second keeps the first step's writes. -/
def seq : Rendered → Rendered → Rendered
  | .ok d1, .ok d2 => .ok (d1 ++ d2)
  | .ok d1, .raised e d2 => .raised e (d1 ++ d2)
  | .raised e d1, _ => .raised e d1

def isOk : Rendered → Bool
  | .ok _ => true
  | .raised _ _ => false

end Rendered

/-- Append one chunk (a `cpp(...)` / `line` call). -/
def emit (c : Chunk) : Rendered := .ok [c]

/-- A rendering step that writes nothing and returns. -/
def skipR : Rendered := .ok []

/-- Raise an exception before writing anything. -/
def raiseR (e : PyErr) : Rendered := .raised e []

/-- Render a list of elements in order, stopping at the first raise
(the Python `for` loop over members). -/
def rlist (f : α → Rendered) : List α → Rendered
  | [] => .ok []
  | x :: xs => (f x).seq (rlist f xs)

/-- Python `with`-statement over a code block: the entry writes
`entry`, then the body runs; the exit action runs no matter how the
body finished (normally or by raising), appending the closing chunk
when the exit itself succeeds, and the body's exception (or the
exit's own exception) propagates.  `ANSICodeFormatter.__enter__` /
`__exit__` under `with`. -/
def pyWith (entry : Delta) (exitr : Except PyErr Chunk) (body : Rendered) : Rendered :=
  match body with
  | .ok d =>
    match exitr with
    | .ok c => .ok (entry ++ d ++ [c])
    | .error e => .raised e (entry ++ d)
  | .raised e d =>
    match exitr with
    | .ok c => .raised e (entry ++ d ++ [c])
    | .error e2 => .raised e2 (entry ++ d)

/-- Python truthiness of an optional string (`None` and `""` are falsy). -/
def pyTruthy : Option String → Bool
  | none => false
  | some s => s ≠ ""

/-- Python `" ".join(d for d in declarators if d)`. -/
def joinDecl (ds : List String) : String :=
  String.intercalate (" ") (ds.filter (fun d => d ≠ ""))

/-- The left brace character (code 123). -/
def lbrace : Char := Char.ofNat 123

/-- The right brace character (code 125). -/
def rbrace : Char := Char.ofNat 125

/-- Braces opened minus braces closed in a string. -/
def strBraceDelta (s : String) : Int :=
  ((s.data.filter (fun c => c = lbrace)).length : Int)
    - ((s.data.filter (fun c => c = rbrace)).length : Int)

/-- Braces opened minus braces closed over a delta. -/
def braceDelta (d : Delta) : Int :=
  (d.map (fun c => strBraceDelta c.text)).sum

/-! ## Formatter core (`code_generation/core/code_formatter.py`) -/

/-- `CodeLayout`: indentation unit, line ending, optional line
terminator (`postfix` attribute, called `postfx` here). -/
structure CodeLayout where
  indent : String
  endline : String
  postfx : String
deriving DecidableEq, Repr

/-- `CodeLayout()` with all defaults. -/
def defaultCodeLayout : CodeLayout :=
  { indent := "    ", endline := "\n", postfx := "" }

/-- `ANSICodeFormatter.__init__` line
`self.postfix = postfix is None and self.code_layout.postfix or postfix`:
the Python `and`/`or` chain returns the layout postfix only when it is
truthy (non-empty); otherwise it falls back to the `postfix` argument,
so a `None` argument with an empty layout postfix stays `None`. -/
def computedPostfix (layoutPf : String) (arg : Option String) : Option String :=
  match arg with
  | some p => some p
  | none => if layoutPf ≠ "" then some layoutPf else none

/-- State of an `ANSICodeFormatter` object (the writer is the ambient
sink, not stored). -/
structure ANSIFmt where
  indentLevel : Nat
  text : String
  endline : Bool
  postfx : Option String
  layout : CodeLayout
deriving DecidableEq, Repr

namespace ANSIFmt

/-- `ANSICodeFormatter.block(text, endline, postfix)`: a child
formatter over the same writer, inheriting the current indent level
and the layout; its stored postfix goes through the `__init__`
`and`/`or` computation. -/
def block (f : ANSIFmt) (text : String) (endl : Bool) (pfArg : Option String) : ANSIFmt :=
  { indentLevel := f.indentLevel
    text := text
    endline := endl
    postfx := computedPostfix f.layout.postfx pfArg
    layout := f.layout }

/-- Chunks written by `__enter__` (before the indent increment). -/
def enterDelta (f : ANSIFmt) : Delta :=
  if f.endline then
    [⟨f.indentLevel, f.text, true⟩, ⟨f.indentLevel, "\x7b", true⟩]
  else
    [⟨f.indentLevel, (if f.text ≠ "" then f.text ++ " " else ("")) ++ "\x7b", true⟩]

/-- `__exit__`: after decrementing the indent, `self.line("}" + self.postfix)`;
concatenating with a `None` postfix raises `TypeError`. -/
def exitChunk (f : ANSIFmt) : Except PyErr Chunk :=
  match f.postfx with
  | some p => .ok ⟨f.indentLevel, "\x7d" ++ p, true⟩
  | none => .error .typeError

/-- Running `with` on the formatter: `__enter__` writes the opening
chunks and increments the indent level; the body runs; `__exit__`
decrements the indent level back and writes the closing chunk (or
raises).  Returns the rendering outcome and the formatter state after
the `with` statement. -/
def blockRun (f : ANSIFmt) (body : Rendered) : Rendered × ANSIFmt :=
  let f1 : ANSIFmt := { f with indentLevel := f.indentLevel + 1 }
  let f2 : ANSIFmt := { f1 with indentLevel := f1.indentLevel - 1 }
  (pyWith (enterDelta f) (exitChunk f2) body, f2)

end ANSIFmt

/-! ## SourceFile handle (`code_generation/core/source_file.py`)

Element rendering receives a `CppSourceFile` handle `cpp`; its writes
go through a fresh formatter with indent level 0, and `cpp.block`
substitutes the layout postfix (empty string under the default layout)
for a missing postfix argument, so block exits on this path always
succeed. -/

/-- `cpp(text)` — one line at indent 0. -/
def cppLine (text : String) : Rendered := emit ⟨0, text, true⟩

/-- `cpp.newline()`. -/
def cppNewline : Rendered := emit ⟨0, "", true⟩

/-- `CppSourceFile.label(text)`. -/
def cppLabel (text : String) : Rendered := emit ⟨0, text ++ ":", true⟩

/-- Chunks written by entering a `cpp.block(...)` block (indent 0). -/
def sfBlockEntry (text : String) (endl : Bool) : Delta :=
  if endl then [⟨0, text, true⟩, ⟨0, "\x7b", true⟩]
  else [⟨0, (if text ≠ "" then text ++ " " else ("")) ++ "\x7b", true⟩]

/-- `with cpp.block(text, endline, postfix):` around a body; `pfx` is
the resolved (string) postfix. -/
def sfBlockRun (text : String) (endl : Bool) (pfx : String) (body : Rendered) : Rendered :=
  pyWith (sfBlockEntry text endl) (.ok ⟨0, "\x7d" ++ pfx, true⟩) body

/-! ## Qualified naming (`code_gen/cpp/language_element.py`)

An element's ancestors are represented by the list of their (optional)
names, closest parent first; the list form makes the parent chain
finite and acyclic by construction, which the Python code assumes by
discipline. -/

/-- The `while parent:` loop of `parent_qualifier`, prepending
`parent.name ++ "::"` for every named ancestor. -/
def parentQualifierLoop : List (Option String) → String → String
  | [], acc => acc
  | p :: rest, acc =>
    parentQualifierLoop rest
      (match p with
       | some n => n ++ "::" ++ acc
       | none => acc)

/-- `CppLanguageElement.parent_qualifier`. -/
def parentQualifier (chain : List (Option String)) : String :=
  parentQualifierLoop chain ("")

/-- `CppLanguageElement.fully_qualified_name`. -/
def fullyQualifiedName (chain : List (Option String)) (name : String) : String :=
  parentQualifier chain ++ name

/-! ## CppVariable (`code_gen/cpp/variable_generator.py`) -/

/-- `CppVariable` properties.  `value` is kept as an optional string
(a numeric Python value renders through the same f-string); the
documentation string is modeled after `dedent` was applied. -/
structure CppVariable where
  name : String
  type : String
  is_static : Bool
  is_extern : Bool
  is_const : Bool
  is_constexpr : Bool
  is_class_member : Bool
  value : Option String
  documentation : Option String
deriving DecidableEq, Repr

namespace CppVariable

/-- `assignment(value)`. -/
def assignment (v : CppVariable) (value : String) : String :=
  v.name ++ " = " ++ value

/-- `_init_value`: the value when truthy, otherwise the empty string. -/
def initValue (v : CppVariable) : String :=
  if pyTruthy v.value then v.value.getD ("") else ("")

def staticStr (v : CppVariable) : String := if v.is_static then ("static") else ("")

def externStr (v : CppVariable) : String := if v.is_extern then ("extern") else ("")

def constStr (v : CppVariable) : String := if v.is_const then ("const") else ("")

def constexprStr (v : CppVariable) : String := if v.is_constexpr then ("constexpr") else ("")

/-- `_sanity_check`, returning the message of the first violated rule
(quotes inside the original messages are dropped). -/
def sanity (v : CppVariable) : Option String :=
  if v.is_const && v.is_constexpr then
    some ("Variable object can be either const or constexpr, not both")
  else if v.is_constexpr && !(pyTruthy v.value) then
    some ("Variable object must be initialized when constexpr")
  else if v.is_static && v.is_extern then
    some ("Variable object can be either extern or static, not both")
  else none

/-- The documentation line written when the documentation is truthy. -/
def docPart (v : CppVariable) : Rendered :=
  if pyTruthy v.documentation then cppLine (v.documentation.getD ("")) else skipR

/-- `render_to_string`: the single-form entry point. -/
def renderToString (v : CppVariable) : Rendered :=
  match sanity v with
  | some msg => raiseR (.valueError msg)
  | none =>
    if v.is_class_member && !(v.is_static && v.is_const) then
      raiseR (.runtimeError
        ("For class member variables use definition() and declaration() methods"))
    else if v.is_extern then
      cppLine (joinDecl [externStr v, v.type, v.name ++ ";"])
    else
      (docPart v).seq
        (cppLine (joinDecl
          [staticStr v, constStr v, constexprStr v, v.type,
           assignment v (initValue v) ++ ";"]))

/-- `render_to_string_declaration`: member declaration line. -/
def renderToStringDeclaration (v : CppVariable) : Rendered :=
  if !v.is_class_member then
    raiseR (.runtimeError ("For automatic variable use its render_to_string() method"))
  else
    (if pyTruthy v.documentation && v.is_class_member then
       cppLine (v.documentation.getD (""))
     else skipR).seq
      (cppLine (joinDecl
        [staticStr v, externStr v, constStr v, constexprStr v, v.type,
         (if !v.is_constexpr then v.name else assignment v (initValue v)) ++ ";"]))

/-- `render_to_string_implementation`: member definition-pass output;
`chain` is the element's ancestor chain used by
`fully_qualified_name`. -/
def renderToStringImplementation (chain : List (Option String)) (v : CppVariable) :
    Rendered :=
  if !v.is_class_member then
    raiseR (.runtimeError ("For automatic variable use its render_to_string() method"))
  else if !v.is_constexpr then
    if v.is_static then
      cppLine (joinDecl
        [staticStr v, constStr v, constexprStr v, v.type,
         fullyQualifiedName chain v.name ++ " = " ++ initValue v ++ ";"])
    else
      cppLine (v.name ++ "(" ++ initValue v ++ ")")
  else
    skipR

end CppVariable

/-! ## CppEnum (`code_generation/cpp/enum_generator.py`) -/

/-- `CppEnum` properties; `pfx` is the `prefix` property, and
`add_counter` distinguishes unset (`none`), explicitly `True`, and
explicitly `False`. -/
structure CppEnum where
  name : String
  pfx : Option String
  is_enum_class : Bool
  add_counter : Option Bool
  enum_items : List String
deriving DecidableEq, Repr

namespace CppEnum

def enumClassStr (e : CppEnum) : String := if e.is_enum_class then ("class") else ("")

/-- `short_header_declaration_to_string`. -/
def shortHeader (e : CppEnum) : String :=
  joinDecl ["enum", enumClassStr e, e.name]

/-- `final_prefix = self.prefix if self.prefix is not None else "e"`. -/
def finalPfx (e : CppEnum) : String := e.pfx.getD ("e")

/-- The item loop: every item gets the running counter value, comma
terminated, one per line inside the block (indent level 1). -/
def itemChunks (p : String) : Nat → List String → Delta
  | _, [] => []
  | k, it :: rest =>
    ⟨1, p ++ it ++ " = " ++ toString k ++ ",", true⟩ :: itemChunks p (k + 1) rest

/-- `self.add_counter in [None, True]`. -/
def counterOn (e : CppEnum) : Bool :=
  (e.add_counter == none) || (e.add_counter == some true)

/-- `render_to_string`: a single self-contained block. -/
def renderToString (e : CppEnum) : Rendered :=
  sfBlockRun (shortHeader e) false (";")
    (.ok (itemChunks (finalPfx e) 0 e.enum_items ++
      (if counterOn e then
         [⟨1, finalPfx e ++ e.name ++ "Count = " ++ toString e.enum_items.length, true⟩]
       else [])))

end CppEnum

/-! ## CppClass.CppMethod (`code_generation/cpp/class_generator.py`) -/

/-- Method properties.  The body callback writes through the handle
into the append-only sink, so it is summarized by its `Rendered`
outcome; `hasParent` (whether `ref_to_parent` is set) is passed to the
render functions by the containing context. -/
structure CppMethod where
  name : String
  ret_type : Option String
  is_static : Bool
  is_constexpr : Bool
  is_virtual : Bool
  is_inline : Bool
  is_pure_virtual : Bool
  is_const : Bool
  is_override : Bool
  is_final : Bool
  arguments : List String
  implementation : Option Rendered
  documentation : Option String
deriving DecidableEq, Repr

namespace CppMethod

/-- `_ret_type`. -/
def retType (m : CppMethod) : String :=
  if pyTruthy m.ret_type then m.ret_type.getD ("") else ("")

/-- `args()`. -/
def args (m : CppMethod) : String := String.intercalate (", ") m.arguments

def staticStr (m : CppMethod) : String := if m.is_static then ("static") else ("")

def constexprStr (m : CppMethod) : String := if m.is_constexpr then ("constexpr") else ("")

def virtualStr (m : CppMethod) : String := if m.is_virtual then ("virtual") else ("")

def inlineStr (m : CppMethod) : String := if m.is_inline then ("inline") else ("")

def constStr (m : CppMethod) : String := if m.is_const then ("const") else ("")

def overrideStr (m : CppMethod) : String := if m.is_override then ("override") else ("")

def finalStr (m : CppMethod) : String := if m.is_final then ("final") else ("")

def pureStr (m : CppMethod) : String := if m.is_pure_virtual then (" = 0") else ("")

/-- `_modifiers_front`. -/
def modifiersFront (m : CppMethod) : String :=
  joinDecl [constexprStr m, virtualStr m, inlineStr m]

/-- `_modifiers_back`. -/
def modifiersBack (m : CppMethod) : String :=
  joinDecl [constStr m, overrideStr m, finalStr m]

/-- The `_sanity_check` rules in source order (condition, message);
quotes inside the original messages are dropped. -/
def sanityRules (hasParent : Bool) (m : CppMethod) : List (Bool × String) :=
  [ (m.is_inline && (m.is_virtual || m.is_pure_virtual),
     "Inline method " ++ m.name ++ " could not be virtual"),
    (m.is_constexpr && (m.is_virtual || m.is_pure_virtual),
     "Constexpr method " ++ m.name ++ " could not be virtual"),
    (m.is_const && m.is_static,
     "Static method " ++ m.name ++ " could not be const"),
    (m.is_const && m.is_virtual,
     "Virtual method " ++ m.name ++ " could not be const"),
    (m.is_const && m.is_pure_virtual,
     "Pure virtual method " ++ m.name ++ " could not be const"),
    (m.is_override && !m.is_virtual,
     "Override method " ++ m.name ++ " should be virtual"),
    (m.is_inline && (m.is_virtual || m.is_pure_virtual),
     "Inline method " ++ m.name ++ " could not be virtual"),
    (m.is_final && !m.is_virtual,
     "Final method " ++ m.name ++ " should be virtual"),
    (m.is_static && m.is_virtual,
     "Static method " ++ m.name ++ " could not be virtual"),
    (m.is_pure_virtual && !m.is_virtual,
     "Pure virtual method " ++ m.name ++ " is also a virtual method"),
    (!hasParent,
     "Method " ++ m.name ++ " object must be a child of CppClass"),
    (m.is_constexpr && m.implementation.isNone,
     "Method " ++ m.name ++ " object must be initialized when constexpr"),
    (m.is_pure_virtual && !m.implementation.isNone,
     "Pure virtual method " ++ m.name ++ " could not be implemented") ]

/-- `_sanity_check`: the message of the first violated rule, if any. -/
def sanity (hasParent : Bool) (m : CppMethod) : Option String :=
  ((sanityRules hasParent m).find? (fun r => r.1)).map (fun r => r.2)

def docPart (m : CppMethod) : Rendered :=
  if pyTruthy m.documentation then cppLine (m.documentation.getD ("")) else skipR

/-- `self.implementation(cpp)`: calling a `None` callback raises
`TypeError`. -/
def bodyRun (m : CppMethod) : Rendered :=
  match m.implementation with
  | none => raiseR .typeError
  | some r => r

/-- `render_to_string`: signature plus inline body block. -/
def renderToString (hasParent : Bool) (chain : List (Option String)) (m : CppMethod) :
    Rendered :=
  match sanity hasParent m with
  | some msg => raiseR (.valueError msg)
  | none =>
    (docPart m).seq
      (sfBlockRun
        (staticStr m ++ modifiersFront m ++ retType m ++ " " ++
          fullyQualifiedName chain m.name ++ "(" ++ args m ++ ")" ++
          modifiersBack m ++ pureStr m)
        true ("") (bodyRun m))

/-- `render_to_string_declaration`: signature line (constexpr methods
inline their body through `render_to_string`). -/
def renderToStringDeclaration (hasParent : Bool) (chain : List (Option String))
    (m : CppMethod) : Rendered :=
  match sanity hasParent m with
  | some msg => raiseR (.valueError msg)
  | none =>
    if m.is_constexpr then
      (docPart m).seq (renderToString hasParent chain m)
    else
      cppLine (staticStr m ++ modifiersFront m ++ " " ++ retType m ++ " " ++
        m.name ++ "(" ++ args m ++ ")" ++ modifiersBack m ++ pureStr m ++ ";")

/-- `render_to_string_implementation`: qualified signature plus body
block in the definition pass. -/
def renderToStringImplementation (hasParent : Bool) (chain : List (Option String))
    (m : CppMethod) : Rendered :=
  match sanity hasParent m with
  | some msg => raiseR (.valueError msg)
  | none =>
    if m.implementation.isNone then
      raiseR (.runtimeError ("No implementation handle for the method " ++ m.name))
    else if m.is_pure_virtual then
      raiseR (.runtimeError ("Pure virtual method " ++ m.name ++ " could not be implemented"))
    else
      (if pyTruthy m.documentation && !m.is_constexpr then
         cppLine (m.documentation.getD (""))
       else skipR).seq
        (sfBlockRun
          (modifiersFront m ++ retType m ++ " " ++
            fullyQualifiedName chain m.name ++ "(" ++ args m ++ ")" ++
            modifiersBack m)
          true ("") (bodyRun m))

end CppMethod

/-! ## CppArray (`code_generation/cpp/array_generator.py`) -/

/-- `CppArray` properties (`type`/`name` empty strings stand for the
falsy unset Python values checked by the sanity check). -/
structure CppArray where
  name : String
  type : String
  is_static : Bool
  is_const : Bool
  is_class_member : Bool
  array_size : Nat
  newline_align : Bool
  items : List String
deriving DecidableEq, Repr

namespace CppArray

def staticStr (a : CppArray) : String := if a.is_static then ("static") else ("")

def constStr (a : CppArray) : String := if a.is_const then ("const") else ("")

/-- `_modifiers`. -/
def modifiers (a : CppArray) : String := joinDecl [staticStr a, constStr a]

/-- `_size`: the size when non-zero (truthy), otherwise empty. -/
def sizeStr (a : CppArray) : String :=
  if a.array_size ≠ 0 then toString a.array_size else ("")

/-- `decl_to_string`. -/
def declToString (a : CppArray) : String :=
  joinDecl [modifiers a, a.type, a.name ++ "[" ++ sizeStr a ++ "]"]

/-- `full_decl_to_string`. -/
def fullDeclToString (chain : List (Option String)) (a : CppArray) : String :=
  joinDecl [modifiers a, a.type,
    fullyQualifiedName chain a.name ++ "[" ++ sizeStr a ++ "]"]

/-- `_content`. -/
def contentStr (a : CppArray) : String :=
  if a.items.isEmpty then ("nullptr") else String.intercalate (", ") a.items

/-- `_sanity_check` (raises `RuntimeError`). -/
def sanity (a : CppArray) : Option String :=
  if a.type = "" then some ("Array type is not set")
  else if a.name = "" then some ("Array name is not set")
  else if a.is_class_member && a.name = "" then
    some ("Class member array name is not set")
  else none

/-- `_render_value`: items one per line inside the block, all but the
last comma-terminated. -/
def renderValue (a : CppArray) : Rendered :=
  if a.items.isEmpty then raiseR (.runtimeError ("Empty arrays do not supported"))
  else
    .ok ((a.items.dropLast.map (fun it => (⟨1, it ++ ",", true⟩ : Chunk))) ++
      [⟨1, a.items.getLast?.getD (""), true⟩])

/-- `render_to_string` (single-form entry point for arrays). -/
def renderToString (a : CppArray) : Rendered :=
  match sanity a with
  | some msg => raiseR (.runtimeError msg)
  | none =>
    if a.is_class_member && !(a.is_static && a.is_const) then
      raiseR (.runtimeError
        ("For class member variables use definition() and declaration() methods"))
    else if a.newline_align && !a.items.isEmpty then
      sfBlockRun (declToString a ++ " =") false (";") (renderValue a)
    else
      cppLine (declToString a ++ " = \x7b" ++ contentStr a ++ "\x7d;")

/-- `render_to_string_declaration`. -/
def renderToStringDeclaration (a : CppArray) : Rendered :=
  match sanity a with
  | some msg => raiseR (.runtimeError msg)
  | none =>
    if !a.is_class_member then
      raiseR (.runtimeError ("For automatic variable use its render_to_string() method"))
    else
      cppLine (declToString a ++ ";")

/-- `render_to_string_implementation`. -/
def renderToStringImplementation (chain : List (Option String)) (a : CppArray) :
    Rendered :=
  match sanity a with
  | some msg => raiseR (.runtimeError msg)
  | none =>
    if !a.is_class_member then
      raiseR (.runtimeError ("For automatic variable use its render_to_string() method"))
    else if !a.is_static then
      raiseR (.runtimeError ("Only static arrays as class members are supported"))
    else if a.newline_align && !a.items.isEmpty then
      sfBlockRun (fullDeclToString chain a ++ " =") false (";") (renderValue a)
    else
      cppLine (fullDeclToString chain a ++ " = \x7b" ++ contentStr a ++ "\x7d;")

end CppArray

/-! ## CppClass (`code_generation/cpp/class_generator.py`) -/

/-- A class/struct: discriminator, optional documentation and parent
class name, and the five ordered member collections. -/
inductive CppClass where
  | mk
 (name : String)
 (is_struct : Bool)
 (documentation : Option String)
 (parent_class : Option String)
 (internal_class_elements : List CppClass)
 (variable_members : List CppVariable)
 (array_members : List CppArray)
 (methods : List CppMethod)
 (scoped_enums : List CppEnum)

namespace CppClass

def name : CppClass → String
  | .mk n _ _ _ _ _ _ _ _ => n

def is_struct : CppClass → Bool
  | .mk _ st _ _ _ _ _ _ _ => st

/-- `_class_type`. -/
def classType (c : CppClass) : String := if c.is_struct then ("struct") else ("class")

def parent_class : CppClass → Option String
  | .mk _ _ _ pc _ _ _ _ _ => pc

/-- The declaration header: `f"{class_type} {name}"` plus the
inheritance suffix when the parent class name is truthy. -/
def renderStr (c : CppClass) : String :=
  classType c ++ " " ++ c.name ++
    (if pyTruthy c.parent_class then (" : public ") ++ c.parent_class.getD ("") else (""))

end CppClass

mutual

/-- `CppClass.render_to_string_declaration`: documentation, the
class/struct block with an access label for non-structs, enums, nested
class declarations, method signatures, then variable and array
declarations, closed with `;` and followed by a blank line.  `anc` is
the class's own ancestor chain. -/
def classRenderToStringDeclaration (anc : List (Option String)) (c : CppClass) :
    Rendered :=
  match c with
  | .mk nm st doc pc classes vars arrs mths enums =>
    (if pyTruthy doc then cppLine (doc.getD ("")) else skipR).seq
      ((sfBlockRun (CppClass.renderStr (.mk nm st doc pc classes vars arrs mths enums))
          true (";")
          ((if !st then cppLabel ("public") else skipR).seq
            ((rlist CppEnum.renderToString enums).seq
              ((classListDecl (some nm :: anc) classes).seq
                ((rlist (CppMethod.renderToStringDeclaration true (some nm :: anc)) mths).seq
                  ((rlist CppVariable.renderToStringDeclaration vars).seq
                    (rlist CppArray.renderToStringDeclaration arrs))))))).seq
        cppNewline)

/-- The loop over nested class declarations. -/
def classListDecl (anc : List (Option String)) (cs : List CppClass) : Rendered :=
  match cs with
  | [] => .ok []
  | c :: rest => (classRenderToStringDeclaration anc c).seq (classListDecl anc rest)

end

mutual

/-- `CppClass.render_static_members_implementation`: definitions of
the static variable members and all array members (each followed by a
blank line), then recursively the same for nested classes. -/
def classStaticImpl (anc : List (Option String)) (c : CppClass) : Rendered :=
  match c with
  | .mk nm _ _ _ classes vars arrs _ _ =>
    (rlist (fun v => (CppVariable.renderToStringImplementation (some nm :: anc) v).seq cppNewline)
        (vars.filter (fun v => v.is_static))).seq
      ((rlist (fun a => (CppArray.renderToStringImplementation (some nm :: anc) a).seq cppNewline)
          arrs).seq
        (classStaticImplList (some nm :: anc) classes))

/-- The loop over nested classes (recursion plus a blank line each). -/
def classStaticImplList (anc : List (Option String)) (cs : List CppClass) : Rendered :=
  match cs with
  | [] => .ok []
  | c :: rest => ((classStaticImpl anc c).seq cppNewline).seq (classStaticImplList anc rest)

end

/-- `CppClass.render_methods_implementation`: full bodies of the
non-pure-virtual methods (each followed by a blank line); for nested
classes the code then calls `render_static_members_implementation`
again (as written in the source). -/
def classMethodsImpl (anc : List (Option String)) (c : CppClass) : Rendered :=
  match c with
  | .mk nm _ _ _ classes _ _ mths _ =>
    (rlist (fun m => (CppMethod.renderToStringImplementation true (some nm :: anc) m).seq cppNewline)
        (mths.filter (fun m => !m.is_pure_virtual))).seq
      (classStaticImplList (some nm :: anc) classes)

/-- `CppClass.render_to_string_implementation`. -/
def classRenderToStringImplementation (anc : List (Option String)) (c : CppClass) :
    Rendered :=
  (classStaticImpl anc c).seq (classMethodsImpl anc c)

/-! ## CppClassScope (`code_gen/cpp/scope_generator.py`) -/

/-- A scope: optional element name, optional access-label text
(`scope`), optional documentation, and the six ordered member
collections. -/
inductive CppClassScope where
  | mk
 (name : Option String)
 (scope : Option String)
 (documentation : Option String)
 (internal_class_elements : List CppClass)
 (variable_members : List CppVariable)
 (array_members : List CppArray)
 (methods : List CppMethod)
 (scoped_enums : List CppEnum)
 (internal_scopes : List CppClassScope)

namespace CppClassScope

def name : CppClassScope → Option String
  | .mk n _ _ _ _ _ _ _ _ => n

def scope : CppClassScope → Option String
  | .mk _ sc _ _ _ _ _ _ _ => sc

def documentation : CppClassScope → Option String
  | .mk _ _ d _ _ _ _ _ _ => d

def internal_class_elements : CppClassScope → List CppClass
  | .mk _ _ _ cs _ _ _ _ _ => cs

def variable_members : CppClassScope → List CppVariable
  | .mk _ _ _ _ vs _ _ _ _ => vs

def array_members : CppClassScope → List CppArray
  | .mk _ _ _ _ _ as_ _ _ _ => as_

def methods : CppClassScope → List CppMethod
  | .mk _ _ _ _ _ _ ms _ _ => ms

def scoped_enums : CppClassScope → List CppEnum
  | .mk _ _ _ _ _ _ _ es _ => es

def internal_scopes : CppClassScope → List CppClassScope
  | .mk _ _ _ _ _ _ _ _ ss => ss

/-- `anything_to_declare_local`: Python `any` over the five local
member lists (list truthiness = non-emptiness). -/
def anythingToDeclareLocal (s : CppClassScope) : Bool :=
  !s.internal_class_elements.isEmpty || !s.scoped_enums.isEmpty ||
    !s.variable_members.isEmpty || !s.array_members.isEmpty || !s.methods.isEmpty

/-- `anything_to_declare`. -/
def anythingToDeclare (s : CppClassScope) : Bool :=
  !s.internal_scopes.isEmpty || anythingToDeclareLocal s

end CppClassScope

mutual

/-- `CppClassScope.render_to_string_declaration`: nothing when there
is nothing to declare; otherwise the access label (whenever the
`scope` text is not `None`), the documentation, then enums, nested
class declarations, method signatures, variable and array
declarations, and nested scope declarations. -/
def scopeRenderToStringDeclaration (anc : List (Option String)) (s : CppClassScope) :
    Rendered :=
  match s with
  | .mk nm sc doc classes vars arrs mths enums scopes =>
    if !(CppClassScope.anythingToDeclare (.mk nm sc doc classes vars arrs mths enums scopes)) then
      .ok []
    else
      (match sc with
       | some t => cppLabel t
       | none => skipR).seq
        ((if pyTruthy doc then cppLine (doc.getD ("")) else skipR).seq
          ((rlist CppEnum.renderToString enums).seq
            ((classListDecl (nm :: anc) classes).seq
              ((rlist (CppMethod.renderToStringDeclaration true (nm :: anc)) mths).seq
                ((rlist CppVariable.renderToStringDeclaration vars).seq
                  ((rlist CppArray.renderToStringDeclaration arrs).seq
                    (scopeListDecl (nm :: anc) scopes)))))))

/-- The loop over nested scope declarations. -/
def scopeListDecl (anc : List (Option String)) (ss : List CppClassScope) : Rendered :=
  match ss with
  | [] => .ok []
  | s :: rest => (scopeRenderToStringDeclaration anc s).seq (scopeListDecl anc rest)

end

mutual

/-- Characterization of an empty declaration-pass output for a scope:
either nothing to declare at all, or no label text, falsy
documentation, no local members, and every nested scope itself has
empty declaration output. -/
def scopeDeclEmpty (s : CppClassScope) : Bool :=
  match s with
  | .mk nm sc doc classes vars arrs mths enums scopes =>
    !(CppClassScope.anythingToDeclare (.mk nm sc doc classes vars arrs mths enums scopes)) ||
      ((sc == none) && !(pyTruthy doc) && classes.isEmpty && enums.isEmpty &&
        vars.isEmpty && arrs.isEmpty && mths.isEmpty && scopeListDeclEmpty scopes)

/-- All scopes in the list have empty declaration output. -/
def scopeListDeclEmpty : List CppClassScope → Bool
  | [] => true
  | s :: rest => scopeDeclEmpty s && scopeListDeclEmpty rest

end

/-! ## Types (`code_gen/cpp/type_base_generator.py`)

`CppBaseType.scoped_name` resolves its qualifiers and base-type name;
`CppTemplateType.scoped_name` renders its template arguments
recursively.  Both call `CppLanguageElement.resolved_name`, whose
definition is not part of the sources here. -/

/-- A type reference: either a raw string, a `CppBaseType` (qualifier
flags plus a base-type reference), or a `CppTemplateType` (the same
plus an ordered template-argument list). -/
inductive CppTypeRef where
  | rawName (s : String)
  | baseType (is_static is_extern is_const is_constexpr is_ref : Bool)
      (ctype : CppTypeRef)
  | templateType (is_static is_extern is_const is_constexpr is_ref : Bool)
      (ctype : CppTypeRef) (template_args : List CppTypeRef)

/-- `CppBaseType._sanity_check` (shared by the template subtype). -/
def typeSanity (is_static is_extern is_const is_constexpr : Bool) : Option String :=
  if is_const && is_constexpr then
    some ("Type object can be either const or constexpr, not both")
  else if is_static && is_extern then
    some ("Type object can be either extern or static, not both")
  else none

mutual

/-- Modelled from the spec: `CppLanguageElement.resolved_name` is
referenced by `type_base_generator.py` but its definition is not among
the sources; per the spec each type argument is "either a raw string
or another Type, recursively rendered", so a raw string resolves to
itself and a type element to its `scoped_name(local_scope)`.  The
`baseType`/`templateType` cases below are translated from
`CppBaseType.scoped_name` and `CppTemplateType.scoped_name`. -/
def resolvedName (localScope : Bool) : CppTypeRef → Except PyErr String
  | .rawName s => .ok s
  | .baseType st ex c cx r t =>
    match typeSanity st ex c cx with
    | some msg => .error (.valueError msg)
    | none =>
      match resolvedName localScope t with
      | .error e => .error e
      | .ok n =>
        .ok (joinDecl
          [(if st then ("static") else ("")), (if ex then ("extern") else ("")),
           (if c then ("const") else ("")), (if cx then ("constexpr") else ("")),
           n ++ (if r then ("&") else (""))])
  | .templateType st ex c cx _ t targs =>
    match typeSanity st ex c cx with
    | some msg => .error (.valueError msg)
    | none =>
      match resolvedName localScope t with
      | .error e => .error e
      | .ok n =>
        match resolvedNameList localScope targs with
        | .error e => .error e
        | .ok ns => .ok (n ++ "<" ++ String.intercalate (", ") ns ++ ">")

/-- The loop over template arguments, each resolved in order. -/
def resolvedNameList (localScope : Bool) : List CppTypeRef → Except PyErr (List String)
  | [] => .ok []
  | t :: rest =>
    match resolvedName localScope t with
    | .error e => .error e
    | .ok n =>
      match resolvedNameList localScope rest with
      | .error e => .error e
      | .ok ns => .ok (n :: ns)

end

/-! ## Helper lemmas -/

/-- The chunks a rendering step appended, error or not. -/
def Rendered.delta : Rendered → Delta
  | .ok d => d
  | .raised _ d => d

theorem strBraceDelta_append (s t : String) :
    strBraceDelta (s ++ t) = strBraceDelta s + strBraceDelta t := by
  simp only [strBraceDelta, String.data_append, List.filter_append, List.length_append]
  push_cast
  ring

theorem braceDelta_append (a b : Delta) :
    braceDelta (a ++ b) = braceDelta a + braceDelta b := by
  simp [braceDelta]

theorem strBraceDelta_lb : strBraceDelta ("\x7b") = 1 := by decide

theorem strBraceDelta_rb : strBraceDelta ("\x7d") = -1 := by decide

theorem strBraceDelta_space : strBraceDelta (" ") = 0 := by decide

/-! ## Claim C2 -/

/-- Claim C2: for every scoped block opened by the formatter with a
string postfix, if the body raises after entry then the block exit
still runs — the formatter's indent level is back at its entry value
after the `with` statement, and the closing brace plus postfix is
still written at the entry indent level — so the output stays
brace-balanced (whenever the opening text, the postfix and the body's
own writes are balanced) while the body's error propagates. -/
theorem c2_block_exception_safe (f : ANSIFmt) (p : String) (e : PyErr) (d : Delta)
    (hp : f.postfx = some p) :
    (f.blockRun (.raised e d)).fst =
      .raised e (f.enterDelta ++ d ++ [⟨f.indentLevel, "\x7d" ++ p, true⟩]) ∧
    (f.blockRun (.raised e d)).snd = f ∧
    (strBraceDelta f.text = 0 → strBraceDelta p = 0 → braceDelta d = 0 →
      braceDelta (f.enterDelta ++ d ++ [⟨f.indentLevel, "\x7d" ++ p, true⟩]) = 0) := by
  have h0 : strBraceDelta ("") = 0 := by decide
  refine ⟨?_, ?_, ?_⟩
  · simp [ANSIFmt.blockRun, pyWith, ANSIFmt.exitChunk, hp]
  · simp [ANSIFmt.blockRun]
  · intro ht hpp hd
    have hent : braceDelta f.enterDelta = 1 := by
      unfold ANSIFmt.enterDelta
      split_ifs with hE htx
      · simp only [braceDelta, List.map_cons, List.map_nil, List.sum_cons, List.sum_nil]
        rw [ht, strBraceDelta_lb]
        ring
      · simp only [braceDelta, List.map_cons, List.map_nil, List.sum_cons, List.sum_nil]
        rw [strBraceDelta_append, strBraceDelta_append, ht, strBraceDelta_space,
          strBraceDelta_lb]
        ring
      · simp only [braceDelta, List.map_cons, List.map_nil, List.sum_cons, List.sum_nil]
        rw [strBraceDelta_append, h0, strBraceDelta_lb]
        ring
    rw [braceDelta_append, braceDelta_append, hent, hd]
    have hcl : braceDelta [(⟨f.indentLevel, "\x7d" ++ p, true⟩ : Chunk)] =
        strBraceDelta ("\x7d" ++ p) := by simp [braceDelta]
    rw [hcl, strBraceDelta_append, strBraceDelta_rb, hpp]
    ring

/-- Witness for C2 at a concrete class block whose body wrote one
balanced line and then raised. -/
theorem c2_block_exception_safe_witness :
    ((⟨0, "class A", true, some (";"), defaultCodeLayout⟩ : ANSIFmt).blockRun
        (.raised (.runtimeError ("boom")) [⟨1, "int x = 0;", true⟩])).fst =
      .raised (.runtimeError ("boom"))
        ((⟨0, "class A", true, some (";"), defaultCodeLayout⟩ : ANSIFmt).enterDelta ++
          [⟨1, "int x = 0;", true⟩] ++ [⟨0, "\x7d;", true⟩]) ∧
    ((⟨0, "class A", true, some (";"), defaultCodeLayout⟩ : ANSIFmt).blockRun
        (.raised (.runtimeError ("boom")) [⟨1, "int x = 0;", true⟩])).snd =
      ⟨0, "class A", true, some (";"), defaultCodeLayout⟩ ∧
    braceDelta
        ((⟨0, "class A", true, some (";"), defaultCodeLayout⟩ : ANSIFmt).enterDelta ++
          [⟨1, "int x = 0;", true⟩] ++ [⟨0, "\x7d;", true⟩]) = 0 := by
  have h := c2_block_exception_safe (⟨0, "class A", true, some (";"), defaultCodeLayout⟩)
    (";") (.runtimeError ("boom")) [⟨1, "int x = 0;", true⟩] rfl
  exact ⟨h.1, h.2.1, h.2.2 (by decide) (by decide) (by decide)⟩

/-! ## Claim C10 -/

/-- Claim C10: under the default code layout (empty postfix), a nested
block created through the formatter's `block(text)` method without an
explicit postfix gets postfix `None`, and exiting that block raises a
type error when concatenating the closing brace with the postfix —
the close succeeds exactly when a non-`None` postfix argument is
supplied or the layout's postfix string is non-empty. -/
theorem c10_block_missing_terminator (f : ANSIFmt) (text : String) (body : Rendered)
    (h : f.layout.postfx = "") :
    (f.block text true none).postfx = none ∧
    ((f.block text true none).blockRun body).fst =
      .raised .typeError ((f.block text true none).enterDelta ++ body.delta) ∧
    (∀ (lp : String) (pf : Option String),
      computedPostfix lp pf ≠ none ↔ (pf ≠ none ∨ lp ≠ "")) := by
  have hpf : (f.block text true none).postfx = none := by
    simp [ANSIFmt.block, computedPostfix, h]
  refine ⟨hpf, ?_, ?_⟩
  · cases body with
    | ok d =>
      simp only [ANSIFmt.blockRun, pyWith, ANSIFmt.exitChunk, hpf, Rendered.delta]
    | raised e d =>
      simp only [ANSIFmt.blockRun, pyWith, ANSIFmt.exitChunk, hpf, Rendered.delta]
  · intro lp pf
    cases pf with
    | none =>
      by_cases hlp : lp = "" <;> simp [computedPostfix, hlp]
    | some q => simp [computedPostfix]

/-- Witness for C10: a nested block under the default layout. -/
theorem c10_block_missing_terminator_witness :
    ((⟨0, "void f()", true, some (""), defaultCodeLayout⟩ : ANSIFmt).block
        ("if (x)") true none).postfx = none ∧
    (((⟨0, "void f()", true, some (""), defaultCodeLayout⟩ : ANSIFmt).block
        ("if (x)") true none).blockRun (.ok [⟨1, "y();", true⟩])).fst =
      .raised .typeError
        (((⟨0, "void f()", true, some (""), defaultCodeLayout⟩ : ANSIFmt).block
            ("if (x)") true none).enterDelta ++ [⟨1, "y();", true⟩]) := by
  have h := c10_block_missing_terminator
    (⟨0, "void f()", true, some (""), defaultCodeLayout⟩) ("if (x)")
    (.ok [⟨1, "y();", true⟩]) rfl
  exact ⟨h.1, h.2.1⟩

/-! ## Claim C7 -/

/-- The enum item loop with running counter `k` pairs the items with
the consecutive values `k, k+1, ...`. -/
theorem itemChunks_eq_zip (p : String) :
    ∀ (xs : List String) (k : Nat),
      CppEnum.itemChunks p k xs =
        (xs.zip (List.range' k xs.length)).map
          (fun pr => ⟨1, p ++ pr.1 ++ " = " ++ toString pr.2 ++ ",", true⟩) := by
  intro xs
  induction xs with
  | nil => intro k; simp [CppEnum.itemChunks]
  | cons x xs ih =>
    intro k
    simp [CppEnum.itemChunks, List.range', ih (k + 1)]

/-- Claim C7: an enum with N items renders them in insertion order
with the values 0, 1, ..., N-1, each named `<prefix><item>` (prefix
defaulting to `e`); unless the counter option is explicitly disabled
one extra final item `<prefix><EnumName>Count` with value N is
appended, and with the counter disabled exactly N items are
rendered. -/
theorem c7_enum_items_and_counter (e : CppEnum) :
    CppEnum.renderToString e =
      .ok (sfBlockEntry (CppEnum.shortHeader e) false ++
        (((e.enum_items.zip (List.range e.enum_items.length)).map
            (fun pr =>
              ⟨1, CppEnum.finalPfx e ++ pr.1 ++ " = " ++ toString pr.2 ++ ",", true⟩)) ++
          (if CppEnum.counterOn e then
             [⟨1, CppEnum.finalPfx e ++ e.name ++ "Count = " ++
                toString e.enum_items.length, true⟩]
           else [])) ++
        [⟨0, "\x7d;", true⟩]) ∧
    (((e.enum_items.zip (List.range e.enum_items.length)).map
        (fun pr =>
          (⟨1, CppEnum.finalPfx e ++ pr.1 ++ " = " ++ toString pr.2 ++ ",", true⟩ : Chunk))) ++
      (if CppEnum.counterOn e then
         [(⟨1, CppEnum.finalPfx e ++ e.name ++ "Count = " ++
            toString e.enum_items.length, true⟩ : Chunk)]
       else [])).length =
      e.enum_items.length + (if CppEnum.counterOn e then 1 else 0) := by
  constructor
  · unfold CppEnum.renderToString sfBlockRun pyWith
    rw [itemChunks_eq_zip, ← List.range_eq_range']
    simp
  · by_cases h : CppEnum.counterOn e <;>
      simp [h, List.length_zip]

/-! ## Claim C8 -/

/-- The qualifier as the claim states it: the names of the named
ancestors, taken from the root down, each followed by `::`. -/
def rootDownQualifier (chain : List (Option String)) : String :=
  (chain.reverse.filterMap id).foldr (fun n acc => n ++ "::" ++ acc) ""

theorem foldr_qual_append (L : List String) (s t : String) :
    (L.foldr (fun n acc => n ++ "::" ++ acc) s) ++ t =
      (L.foldr (fun n acc => n ++ "::" ++ acc) "") ++ (s ++ t) := by
  induction L with
  | nil => simp [String.empty_append]
  | cons a L ih =>
    simp only [List.foldr_cons]
    rw [String.append_assoc, String.append_assoc, ih, String.append_assoc]
    exact (String.append_assoc a ("::") _).symm

theorem parentQualifierLoop_eq (chain : List (Option String)) :
    ∀ acc : String, parentQualifierLoop chain acc = rootDownQualifier chain ++ acc := by
  induction chain with
  | nil => intro acc; simp [parentQualifierLoop, rootDownQualifier, String.empty_append]
  | cons p rest ih =>
    intro acc
    cases p with
    | none =>
      simp only [parentQualifierLoop, ih]
      unfold rootDownQualifier
      simp
    | some n =>
      simp only [parentQualifierLoop, ih]
      unfold rootDownQualifier
      simp only [List.reverse_cons, List.filterMap_append, List.filterMap_cons,
        List.filterMap_nil, id, List.foldr_append, List.foldr_cons, List.foldr_nil]
      rw [foldr_qual_append (List.filterMap id rest.reverse) (n ++ "::" ++ "") acc]
      rw [String.append_empty]

/-- The concrete `Outer`/`Inner` tree of the claim: `Inner` holds one
static member `m_var` and is nested in `Outer`. -/
def innerClassC8 : CppClass :=
  .mk ("Inner") false none none []
    [{ name := "m_var", type := "int", is_static := true, is_extern := false,
       is_const := false, is_constexpr := false, is_class_member := true,
       value := some ("0"), documentation := none }] [] [] []

def outerClassC8 : CppClass := .mk ("Outer") false none none [innerClassC8] [] [] [] []

/-- Claim C8: for every element (parent chains are finite lists here,
hence acyclic), `fully_qualified_name` equals the names of its named
ancestors from the root down, each followed by `::`, followed by the
element's own name — an element with no parent yields its bare name —
and in the definition pass of a class `Outer` with nested class
`Inner` holding a static member, that member is qualified as
`Outer::Inner::m_var`. -/
theorem c8_fully_qualified_name :
    (∀ (chain : List (Option String)) (name : String),
      fullyQualifiedName chain name = rootDownQualifier chain ++ name) ∧
    fullyQualifiedName [] "m_var" = "m_var" ∧
    classStaticImpl [] outerClassC8 =
      .ok [⟨0, "static int Outer::Inner::m_var = 0;", true⟩,
        ⟨0, "", true⟩, ⟨0, "", true⟩] := by
  refine ⟨?_, by decide, by decide⟩
  intro chain name
  unfold fullyQualifiedName parentQualifier
  rw [parentQualifierLoop_eq chain (""), String.append_empty]

/-! ## Claim C3 -/

/-- Claim C3 (amended): for every variable passing the sanity check,
`render_to_string` emits one complete statement (preceded by the
documentation line when set) when the variable is not a class member,
and likewise succeeds when it is a static-and-const class member; for
every other class member — including constexpr members — it fails
with an invalid-usage error and writes nothing. -/
theorem c3_variable_render_entry (v : CppVariable)
    (h : CppVariable.sanity v = none) :
    CppVariable.renderToString v =
      (if v.is_class_member && !(v.is_static && v.is_const) then
        .raised (.runtimeError
          ("For class member variables use definition() and declaration() methods")) []
      else if v.is_extern then
        .ok [⟨0, joinDecl [CppVariable.externStr v, v.type, v.name ++ ";"], true⟩]
      else
        .ok ((if pyTruthy v.documentation then
            [(⟨0, v.documentation.getD (""), true⟩ : Chunk)]
          else []) ++
          [⟨0, joinDecl
            [CppVariable.staticStr v, CppVariable.constStr v, CppVariable.constexprStr v,
             v.type, CppVariable.assignment v (CppVariable.initValue v) ++ ";"], true⟩])) := by
  unfold CppVariable.renderToString CppVariable.docPart
  rw [h]
  split_ifs <;> simp [cppLine, emit, skipR, raiseR, Rendered.seq]

/-- A non-member const variable (from the repository's own test
suite). -/
def c3LocalVar : CppVariable :=
  { name := "var1", type := "char*", is_static := false, is_extern := false,
    is_const := true, is_constexpr := false, is_class_member := false,
    value := some ("0"), documentation := none }

/-- Witness for C3 at the test suite's non-member const variable. -/
theorem c3_variable_render_entry_witness :
    CppVariable.renderToString c3LocalVar =
      (if c3LocalVar.is_class_member && !(c3LocalVar.is_static && c3LocalVar.is_const) then
        .raised (.runtimeError
          ("For class member variables use definition() and declaration() methods")) []
      else if c3LocalVar.is_extern then
        .ok [⟨0, joinDecl [CppVariable.externStr c3LocalVar, c3LocalVar.type,
          c3LocalVar.name ++ ";"], true⟩]
      else
        .ok ((if pyTruthy c3LocalVar.documentation then
            [(⟨0, c3LocalVar.documentation.getD (""), true⟩ : Chunk)]
          else []) ++
          [⟨0, joinDecl
            [CppVariable.staticStr c3LocalVar, CppVariable.constStr c3LocalVar,
             CppVariable.constexprStr c3LocalVar, c3LocalVar.type,
             CppVariable.assignment c3LocalVar (CppVariable.initValue c3LocalVar) ++ ";"],
            true⟩])) :=
  c3_variable_render_entry c3LocalVar (by decide)

/-- A constexpr class member with a value: it passes the sanity check
but is not static-and-const. -/
def c3ConstexprMember : CppVariable :=
  { name := "COUNT", type := "int", is_static := false, is_extern := false,
    is_const := false, is_constexpr := true, is_class_member := true,
    value := some ("0"), documentation := none }

/-- Counterexample for C3 as stated: a constexpr class member passes
the sanity check, yet `render_to_string` fails (with the invalid-usage
error) instead of succeeding. -/
theorem c3_constexpr_member_refutes :
    CppVariable.sanity c3ConstexprMember = none ∧
    c3ConstexprMember.is_class_member = true ∧
    c3ConstexprMember.is_constexpr = true ∧
    (CppVariable.renderToString c3ConstexprMember).isOk = false ∧
    CppVariable.renderToString c3ConstexprMember =
      .raised (.runtimeError
        ("For class member variables use definition() and declaration() methods")) [] := by
  refine ⟨by decide, by decide, by decide, by decide, by decide⟩

/-! ## Claim C4 -/

/-- Claim C4 (amended): for every class-member variable, the
definition pass emits the qualified full definition when the variable
is static and non-constexpr, a constructor-initializer-list fragment
`name(value)` when it is non-static and non-constexpr, and silently
emits nothing (no output and no error) when it is constexpr. -/
theorem c4_member_definition_pass (chain : List (Option String)) (v : CppVariable)
    (h : v.is_class_member = true) :
    CppVariable.renderToStringImplementation chain v =
      (if v.is_constexpr then .ok []
       else if v.is_static then
         .ok [⟨0, joinDecl
           [CppVariable.staticStr v, CppVariable.constStr v, CppVariable.constexprStr v,
            v.type, fullyQualifiedName chain v.name ++ " = " ++
              CppVariable.initValue v ++ ";"], true⟩]
       else
         .ok [⟨0, v.name ++ "(" ++ CppVariable.initValue v ++ ")", true⟩]) := by
  unfold CppVariable.renderToStringImplementation
  rw [h]
  by_cases hcx : v.is_constexpr
  · simp [hcx, skipR]
  · by_cases hs : v.is_static <;> simp [hcx, hs, cppLine, emit]

/-- A static const member variable (the running example of the
sources). -/
def c4StaticMember : CppVariable :=
  { name := "m_var", type := "size_t", is_static := true, is_extern := false,
    is_const := true, is_constexpr := false, is_class_member := true,
    value := some ("255"), documentation := none }

/-- Witness for C4 at the static const member. -/
theorem c4_member_definition_pass_witness :
    CppVariable.renderToStringImplementation [some ("MyClass")] c4StaticMember =
      (if c4StaticMember.is_constexpr then .ok []
       else if c4StaticMember.is_static then
         .ok [⟨0, joinDecl
           [CppVariable.staticStr c4StaticMember, CppVariable.constStr c4StaticMember,
            CppVariable.constexprStr c4StaticMember, c4StaticMember.type,
            fullyQualifiedName [some ("MyClass")] c4StaticMember.name ++ " = " ++
              CppVariable.initValue c4StaticMember ++ ";"], true⟩]
       else
         .ok [⟨0, c4StaticMember.name ++ "(" ++
           CppVariable.initValue c4StaticMember ++ ")", true⟩]) :=
  c4_member_definition_pass [some ("MyClass")] c4StaticMember (by decide)

/-- A static constexpr class member. -/
def c4ConstexprMember : CppVariable :=
  { name := "PI", type := "double", is_static := true, is_extern := false,
    is_const := false, is_constexpr := true, is_class_member := true,
    value := some ("3.14"), documentation := none }

/-- Counterexample for C4 as stated: for a constexpr class member the
definition pass succeeds with no output at all, rather than failing
with an invalid-usage error. -/
theorem c4_constexpr_member_refutes :
    c4ConstexprMember.is_class_member = true ∧
    c4ConstexprMember.is_constexpr = true ∧
    CppVariable.renderToStringImplementation [some ("Math")] c4ConstexprMember = .ok [] := by
  refine ⟨by decide, by decide, by decide⟩

/-! ## Claim C6 -/

/-- The documented modifier rules for methods: inline or constexpr
combined with virtual/pure-virtual; const combined with static,
virtual, or pure-virtual; override or final without virtual; static
with virtual; pure-virtual without virtual or with a body callback;
constexpr without a body callback; a method with no parent. -/
def violatesMethodRulesB (hasParent : Bool) (m : CppMethod) : Bool :=
  (m.is_inline && (m.is_virtual || m.is_pure_virtual)) ||
  (m.is_constexpr && (m.is_virtual || m.is_pure_virtual)) ||
  (m.is_const && (m.is_static || m.is_virtual || m.is_pure_virtual)) ||
  ((m.is_override || m.is_final) && !m.is_virtual) ||
  (m.is_static && m.is_virtual) ||
  (m.is_pure_virtual && !m.is_virtual) ||
  (m.is_pure_virtual && !m.implementation.isNone) ||
  (m.is_constexpr && m.implementation.isNone) ||
  (!hasParent)

/-- A method that passes the sanity check violates none of the
documented rules. -/
theorem sanity_none_no_violation (hp : Bool) (m : CppMethod)
    (h : CppMethod.sanity hp m = none) : violatesMethodRulesB hp m = false := by
  rcases m with ⟨nm, rt, st, cx, vt, il, pv, ct, ov, fn, ar, im, dc⟩
  unfold CppMethod.sanity CppMethod.sanityRules at h
  unfold violatesMethodRulesB
  rcases im with _ | r <;>
    cases st <;> cases cx <;> cases vt <;> cases il <;> cases pv <;> cases ct <;>
    cases ov <;> cases fn <;> cases hp <;>
    first
      | rfl
      | (simp [List.find?] at h)

/-- Claim C6: every render entry point of a method runs the modifier
sanity check first, and every violation of the documented rules raises
a configuration error before any text is written — an invalid method
produces no partial output on any of the three entry points. -/
theorem c6_method_sanity_before_output (hp : Bool) (chain : List (Option String))
    (m : CppMethod) (h : violatesMethodRulesB hp m = true) :
    ∃ msg, CppMethod.sanity hp m = some msg ∧
      CppMethod.renderToString hp chain m = .raised (.valueError msg) [] ∧
      CppMethod.renderToStringDeclaration hp chain m = .raised (.valueError msg) [] ∧
      CppMethod.renderToStringImplementation hp chain m = .raised (.valueError msg) [] := by
  have hs : CppMethod.sanity hp m ≠ none := by
    intro hn
    rw [sanity_none_no_violation hp m hn] at h
    exact absurd h (by simp)
  obtain ⟨msg, hmsg⟩ := Option.ne_none_iff_exists'.mp hs
  refine ⟨msg, hmsg, ?_, ?_, ?_⟩ <;>
    simp [CppMethod.renderToString, CppMethod.renderToStringDeclaration,
      CppMethod.renderToStringImplementation, hmsg, raiseR]

/-- A const static method (violates a documented exclusion). -/
def c6BadMethod : CppMethod :=
  { name := "GetX", ret_type := some ("int"), is_static := true,
    is_constexpr := false, is_virtual := false, is_inline := false,
    is_pure_virtual := false, is_const := true, is_override := false,
    is_final := false, arguments := [],
    implementation := some (.ok [⟨0, "return m_x;", true⟩]),
    documentation := none }

/-- Witness for C6 at a const static method with a parent. -/
theorem c6_method_sanity_before_output_witness :
    ∃ msg, CppMethod.sanity true c6BadMethod = some msg ∧
      CppMethod.renderToString true [some ("A")] c6BadMethod =
        .raised (.valueError msg) [] ∧
      CppMethod.renderToStringDeclaration true [some ("A")] c6BadMethod =
        .raised (.valueError msg) [] ∧
      CppMethod.renderToStringImplementation true [some ("A")] c6BadMethod =
        .raised (.valueError msg) [] :=
  c6_method_sanity_before_output true [some ("A")] c6BadMethod (by decide)

/-! ## Claim C9 -/

/-- The qualifier keywords selected by the flags, in source order. -/
def typeQualKeywords (st ex c cx : Bool) : List String :=
  (if st then ["static"] else []) ++ (if ex then ["extern"] else []) ++
    (if c then ["const"] else []) ++ (if cx then ["constexpr"] else [])

/-- The filtered space-join of the qualifier strings equals the
space-join of the selected keyword list (for a non-empty last
entry). -/
theorem joinDecl_eq_keywords (st ex c cx : Bool) (last : String) (h : last ≠ "") :
    joinDecl [(if st then ("static") else ("")), (if ex then ("extern") else ("")),
      (if c then ("const") else ("")), (if cx then ("constexpr") else ("")), last] =
      String.intercalate (" ") (typeQualKeywords st ex c cx ++ [last]) := by
  unfold joinDecl typeQualKeywords
  cases st <;> cases ex <;> cases c <;> cases cx <;> simp [h]

/-- Claim C9: for valid qualifier flags, a base type's `scoped_name`
is the space-joined qualifier keywords (static/extern/const/constexpr)
followed by the resolved base-type name, with `&` appended for
references; a template type's `scoped_name` is its resolved base name
followed by its type arguments in order, each recursively resolved,
comma-joined inside angle brackets. -/
theorem c9_type_scoped_name :
    (∀ (st ex c cx r : Bool) (t : CppTypeRef) (localScope : Bool) (n : String),
      ¬(c = true ∧ cx = true) → ¬(st = true ∧ ex = true) →
      resolvedName localScope t = .ok n → n ≠ "" →
      resolvedName localScope (.baseType st ex c cx r t) =
        .ok (String.intercalate (" ")
          (typeQualKeywords st ex c cx ++ [n ++ (if r then ("&") else (""))]))) ∧
    (∀ (st ex c cx r : Bool) (t : CppTypeRef) (targs : List CppTypeRef)
      (localScope : Bool) (n : String) (ns : List String),
      ¬(c = true ∧ cx = true) → ¬(st = true ∧ ex = true) →
      resolvedName localScope t = .ok n →
      resolvedNameList localScope targs = .ok ns →
      resolvedName localScope (.templateType st ex c cx r t targs) =
        .ok (n ++ "<" ++ String.intercalate (", ") ns ++ ">")) := by
  constructor
  · intro st ex c cx r t localScope n hccx hstex ht hn
    have hs : typeSanity st ex c cx = none := by
      unfold typeSanity
      cases c <;> cases cx <;> cases st <;> cases ex <;> simp_all
    cases r with
    | true =>
      have hnr : n ++ "&" ≠ "" := by
        intro he
        have hlen := congrArg String.length he
        rw [String.length_append] at hlen
        have h1 : ("&" : String).length = 1 := rfl
        have h0 : ("" : String).length = 0 := rfl
        rw [h1, h0] at hlen
        omega
      simp only [resolvedName, hs, ht, if_true]
      rw [joinDecl_eq_keywords st ex c cx _ hnr]
    | false =>
      simp only [resolvedName, hs, ht, Bool.false_eq_true, if_false, String.append_empty]
      rw [joinDecl_eq_keywords st ex c cx _ hn]
  · intro st ex c cx r t targs localScope n ns hccx hstex ht htargs
    have hs : typeSanity st ex c cx = none := by
      unfold typeSanity
      cases c <;> cases cx <;> cases st <;> cases ex <;> simp_all
    simp only [resolvedName, hs, ht, htargs]

/-- Witness for C9: a static const reference to a raw base type and a
template over two raw arguments. -/
theorem c9_type_scoped_name_witness :
    resolvedName false (.baseType true false true false true (.rawName ("T"))) =
      .ok (String.intercalate (" ")
        (typeQualKeywords true false true false ++ ["T" ++ (if true then ("&") else (""))])) ∧
    resolvedName false
        (.templateType false false false false false (.rawName ("std::map"))
          [.rawName ("int"), .rawName ("std::string")]) =
      .ok ("std::map" ++ "<" ++ String.intercalate (", ") ["int", "std::string"] ++ ">") :=
  ⟨c9_type_scoped_name.1 true false true false true (.rawName ("T")) false ("T")
      (by simp) (by simp) rfl (by decide),
    c9_type_scoped_name.2 false false false false false (.rawName ("std::map"))
      [.rawName ("int"), .rawName ("std::string")] false ("std::map") ["int", "std::string"]
      (by simp) (by simp) rfl (by simp [resolvedNameList, resolvedName])⟩

/-! ## Claim C1 -/

/-- The claim's struct member: `static const size_t m_var = 255`. -/
def myVarC1 : CppVariable :=
  { name := "m_var", type := "size_t", is_static := true, is_extern := false,
    is_const := true, is_constexpr := false, is_class_member := true,
    value := some ("255"), documentation := none }

/-- The claim's static method `GetVar` whose body callback emits
`return m_var;`. -/
def getVarMethodC1 : CppMethod :=
  { name := "GetVar", ret_type := some ("size_t"), is_static := true,
    is_constexpr := false, is_virtual := false, is_inline := false,
    is_pure_virtual := false, is_const := false, is_override := false,
    is_final := false, arguments := [],
    implementation := some (.ok [⟨0, "return m_var;", true⟩]),
    documentation := none }

/-- The claim's struct `MyClass`. -/
def myClassC1 : CppClass :=
  .mk ("MyClass") true none none [] [myVarC1] [] [getVarMethodC1] []

/-- Claim C1, evaluated: the declaration pass renders
`struct MyClass / { / static size_t GetVar(); / static const size_t m_var; / };`
exactly as the claim states (methods before variables, no access label
for a struct), but the definition pass renders
`static const size_t MyClass::m_var = 255;` — with a leading `static`
keyword the claim (and the generator's own docstrings) do not have —
followed by `size_t MyClass::GetVar() { return m_var; }`. -/
theorem c1_end_to_end_rendering :
    classRenderToStringDeclaration [] myClassC1 =
      .ok [⟨0, "struct MyClass", true⟩, ⟨0, "\x7b", true⟩,
        ⟨0, "static size_t GetVar();", true⟩,
        ⟨0, "static const size_t m_var;", true⟩,
        ⟨0, "\x7d;", true⟩, ⟨0, "", true⟩] ∧
    classRenderToStringImplementation [] myClassC1 =
      .ok [⟨0, "static const size_t MyClass::m_var = 255;", true⟩, ⟨0, "", true⟩,
        ⟨0, "size_t MyClass::GetVar()", true⟩, ⟨0, "\x7b", true⟩,
        ⟨0, "return m_var;", true⟩, ⟨0, "\x7d", true⟩, ⟨0, "", true⟩] :=
  ⟨by decide, by decide⟩

/-! ## Claim C5 — supporting lemmas -/

theorem seq_eq_ok {a b : Rendered} {d : Delta} (h : a.seq b = .ok d) :
    ∃ d1 d2, a = .ok d1 ∧ b = .ok d2 ∧ d = d1 ++ d2 := by
  cases a with
  | ok d1 =>
    cases b with
    | ok d2 =>
      refine ⟨d1, d2, rfl, rfl, ?_⟩
      simpa [Rendered.seq] using h.symm
    | raised e d2 => simp [Rendered.seq] at h
  | raised e d1 => simp [Rendered.seq] at h

theorem sfBlockRun_ok_ne_nil {text : String} {endl : Bool} {pfx : String}
    {body : Rendered} {d : Delta} (h : sfBlockRun text endl pfx body = .ok d) :
    d ≠ [] := by
  cases body with
  | ok bd =>
    simp only [sfBlockRun, pyWith] at h
    intro hnil
    rw [hnil] at h
    simp at h
  | raised e bd => simp [sfBlockRun, pyWith] at h

theorem enum_render_ok_ne_nil {e : CppEnum} {d : Delta}
    (h : CppEnum.renderToString e = .ok d) : d ≠ [] := by
  unfold CppEnum.renderToString at h
  exact sfBlockRun_ok_ne_nil h

theorem cppLine_ok_ne_nil {t : String} {d : Delta} (h : cppLine t = .ok d) : d ≠ [] := by
  simp only [cppLine, emit, Rendered.ok.injEq] at h
  intro hnil
  rw [hnil] at h
  simp at h

theorem var_decl_ok_ne_nil {v : CppVariable} {d : Delta}
    (h : CppVariable.renderToStringDeclaration v = .ok d) : d ≠ [] := by
  unfold CppVariable.renderToStringDeclaration at h
  split at h
  · simp [raiseR] at h
  · obtain ⟨d1, d2, h1, h2, rfl⟩ := seq_eq_ok h
    have h2ne := cppLine_ok_ne_nil h2
    intro hnil
    rcases List.append_eq_nil.mp hnil with ⟨-, h2nil⟩
    exact h2ne h2nil

theorem arr_decl_ok_ne_nil {a : CppArray} {d : Delta}
    (h : CppArray.renderToStringDeclaration a = .ok d) : d ≠ [] := by
  unfold CppArray.renderToStringDeclaration at h
  split at h
  · simp [raiseR] at h
  · split at h
    · simp [raiseR] at h
    · exact cppLine_ok_ne_nil h

theorem method_decl_ok_ne_nil {hp : Bool} {chain : List (Option String)}
    {m : CppMethod} {d : Delta}
    (h : CppMethod.renderToStringDeclaration hp chain m = .ok d) : d ≠ [] := by
  unfold CppMethod.renderToStringDeclaration at h
  split at h
  · simp [raiseR] at h
  · split at h
    · obtain ⟨d1, d2, h1, h2, rfl⟩ := seq_eq_ok h
      unfold CppMethod.renderToString at h2
      split at h2
      · simp [raiseR] at h2
      · obtain ⟨d3, d4, h3, h4, rfl⟩ := seq_eq_ok h2
        have h4ne := sfBlockRun_ok_ne_nil h4
        intro hnil
        rcases List.append_eq_nil.mp hnil with ⟨-, h24nil⟩
        rcases List.append_eq_nil.mp h24nil with ⟨-, h4nil⟩
        exact h4ne h4nil
    · exact cppLine_ok_ne_nil h

theorem class_decl_ok_ne_nil {anc : List (Option String)} {c : CppClass} {d : Delta}
    (h : classRenderToStringDeclaration anc c = .ok d) : d ≠ [] := by
  rcases c with ⟨nm, st, doc, pc, classes, vars, arrs, mths, enums⟩
  unfold classRenderToStringDeclaration at h
  obtain ⟨d1, d2, h1, h2, rfl⟩ := seq_eq_ok h
  obtain ⟨d3, d4, h3, h4, rfl⟩ := seq_eq_ok h2
  have h3ne := sfBlockRun_ok_ne_nil h3
  intro hnil
  rcases List.append_eq_nil.mp hnil with ⟨-, h34nil⟩
  rcases List.append_eq_nil.mp h34nil with ⟨h3nil, -⟩
  exact h3ne h3nil

theorem rlist_ok_nil_iff {α : Type _} {f : α → Rendered} {l : List α} {d : Delta}
    (hne : ∀ x ∈ l, ∀ dx, f x = .ok dx → dx ≠ [])
    (h : rlist f l = .ok d) : d = [] ↔ l = [] := by
  induction l generalizing d with
  | nil =>
    simp only [rlist, Rendered.ok.injEq] at h
    simp [← h]
  | cons x xs ih =>
    simp only [rlist] at h
    obtain ⟨d1, d2, h1, h2, rfl⟩ := seq_eq_ok h
    have h1ne := hne x (by simp) d1 h1
    constructor
    · intro hnil
      exact absurd (List.append_eq_nil.mp hnil).1 h1ne
    · intro hcons
      exact absurd hcons (by simp)

theorem classListDecl_ok_nil_iff {anc : List (Option String)} {cs : List CppClass}
    {d : Delta} (h : classListDecl anc cs = .ok d) : d = [] ↔ cs = [] := by
  induction cs generalizing d with
  | nil =>
    unfold classListDecl at h
    simp only [Rendered.ok.injEq] at h
    simp [← h]
  | cons c rest ih =>
    unfold classListDecl at h
    obtain ⟨d1, d2, h1, h2, rfl⟩ := seq_eq_ok h
    have h1ne := class_decl_ok_ne_nil h1
    constructor
    · intro hnil
      exact absurd (List.append_eq_nil.mp hnil).1 h1ne
    · intro hcons
      exact absurd hcons (by simp)

set_option maxHeartbeats 1600000 in
theorem scope_decl_empty_iff_aux :
    ∀ (n : Nat) (anc : List (Option String)) (s : CppClassScope) (d : Delta),
      sizeOf s ≤ n → scopeRenderToStringDeclaration anc s = .ok d →
      (d = [] ↔ scopeDeclEmpty s = true) := by
  intro n
  induction n with
  | zero =>
    intro anc s d hsz
    exfalso
    rcases s with ⟨nm, sc, doc, classes, vars, arrs, mths, enums, scopes⟩
    simp at hsz
  | succ n ih =>
    intro anc s d hsz h
    rcases s with ⟨nm, sc, doc, classes, vars, arrs, mths, enums, scopes⟩
    by_cases hany :
      CppClassScope.anythingToDeclare (.mk nm sc doc classes vars arrs mths enums scopes)
    · have hscopes_sz : ∀ s' ∈ scopes, sizeOf s' ≤ n := by
        intro s' hs'
        have h1 : sizeOf s' < sizeOf scopes := List.sizeOf_lt_of_mem hs'
        have h2 : sizeOf scopes <
            sizeOf (CppClassScope.mk nm sc doc classes vars arrs mths enums scopes) := by
          simp
        omega
      have hlist : ∀ (ss : List CppClassScope) (dd : Delta),
          (∀ s' ∈ ss, sizeOf s' ≤ n) →
          scopeListDecl (nm :: anc) ss = .ok dd →
          (dd = [] ↔ scopeListDeclEmpty ss = true) := by
        intro ss
        induction ss with
        | nil =>
          intro dd _ hh
          unfold scopeListDecl at hh
          simp only [Rendered.ok.injEq] at hh
          simp [← hh, scopeListDeclEmpty]
        | cons shead stail ihl =>
          intro dd hsz' hh
          unfold scopeListDecl at hh
          obtain ⟨dh, dt, hh1, hh2, rfl⟩ := seq_eq_ok hh
          have hhead := ih (nm :: anc) shead dh (hsz' _ (by simp)) hh1
          have htail := ihl dt (fun x hx => hsz' x (by simp [hx])) hh2
          unfold scopeListDeclEmpty
          constructor
          · intro hnil
            rcases List.append_eq_nil.mp hnil with ⟨hdh, hdt⟩
            rw [Bool.and_eq_true]
            exact ⟨hhead.mp hdh, htail.mp hdt⟩
          · intro hb
            rw [Bool.and_eq_true] at hb
            rw [hhead.mpr hb.1, htail.mpr hb.2]
            rfl
      unfold scopeRenderToStringDeclaration at h
      rw [hany] at h
      simp only [Bool.not_true, Bool.false_eq_true, if_false] at h
      obtain ⟨dl, rest1, hl, h1, rfl⟩ := seq_eq_ok h
      obtain ⟨dd, rest2, hdoc, h2, rfl⟩ := seq_eq_ok h1
      obtain ⟨de, rest3, henums, h3, rfl⟩ := seq_eq_ok h2
      obtain ⟨dc, rest4, hclasses, h4, rfl⟩ := seq_eq_ok h3
      obtain ⟨dm, rest5, hmths, h5, rfl⟩ := seq_eq_ok h4
      obtain ⟨dv, rest6, hvars, h6, rfl⟩ := seq_eq_ok h5
      obtain ⟨da, ds, harrs, hscopes, rfl⟩ := seq_eq_ok h6
      have hil : dl = [] ↔ sc = none := by
        cases sc with
        | none =>
          simp only [skipR, Rendered.ok.injEq] at hl
          simp [← hl]
        | some t =>
          simp only [cppLabel, emit, Rendered.ok.injEq] at hl
          simp [← hl]
      have hid : dd = [] ↔ pyTruthy doc = false := by
        by_cases hdc : pyTruthy doc
        · simp only [hdc, if_true, cppLine, emit, Rendered.ok.injEq] at hdoc
          simp [← hdoc, hdc]
        · simp only [hdc, Bool.false_eq_true, if_false, skipR, Rendered.ok.injEq] at hdoc
          simp [← hdoc, hdc]
      have hie : de = [] ↔ enums = [] :=
        rlist_ok_nil_iff (fun e _ dx hdx => enum_render_ok_ne_nil hdx) henums
      have hic : dc = [] ↔ classes = [] := classListDecl_ok_nil_iff hclasses
      have him : dm = [] ↔ mths = [] :=
        rlist_ok_nil_iff (fun m _ dx hdx => method_decl_ok_ne_nil hdx) hmths
      have hiv : dv = [] ↔ vars = [] :=
        rlist_ok_nil_iff (fun v _ dx hdx => var_decl_ok_ne_nil hdx) hvars
      have hia : da = [] ↔ arrs = [] :=
        rlist_ok_nil_iff (fun a _ dx hdx => arr_decl_ok_ne_nil hdx) harrs
      have his : ds = [] ↔ scopeListDeclEmpty scopes = true :=
        hlist scopes ds hscopes_sz hscopes
      unfold scopeDeclEmpty
      rw [hany]
      simp only [Bool.not_true, Bool.false_or, List.append_eq_nil,
        Bool.and_eq_true, beq_iff_eq, List.isEmpty_iff, Bool.not_eq_true,
        Bool.not_eq_true', hil, hid, hie, hic, him, hiv, hia, his]
      tauto
    · have hany' :
          CppClassScope.anythingToDeclare
            (.mk nm sc doc classes vars arrs mths enums scopes) = false := by
        simpa using hany
      unfold scopeRenderToStringDeclaration at h
      rw [hany'] at h
      simp only [Bool.not_false, if_true, Rendered.ok.injEq] at h
      unfold scopeDeclEmpty
      rw [hany']
      simp [← h]

/-- Claim C5 (amended): whenever a scope's declaration render
succeeds, its output is empty if and only if the scope has no members
in any of its six categories, or it has no access label, no (truthy)
documentation and no local members and every nested scope's own
declaration output is empty (`scopeDeclEmpty`).  The literal claim
fails on a scope whose only member is an empty nested scope. -/
theorem c5_scope_declaration_empty_iff (anc : List (Option String))
    (s : CppClassScope) (d : Delta)
    (h : scopeRenderToStringDeclaration anc s = .ok d) :
    d = [] ↔ scopeDeclEmpty s = true :=
  scope_decl_empty_iff_aux (sizeOf s) anc s d (le_refl _) h

/-- A scope holding a single variable member. -/
def c5VarScope : CppClassScope :=
  .mk none none none []
    [{ name := "m_x", type := "int", is_static := false, is_extern := false,
       is_const := false, is_constexpr := false, is_class_member := true,
       value := none, documentation := none }] [] [] [] []

/-- Witness for C5 at a scope with one variable member (non-empty
output, non-empty characterization both sides false). -/
theorem c5_scope_declaration_empty_iff_witness :
    (([⟨0, "int m_x;", true⟩] : Delta) = [] ↔ scopeDeclEmpty c5VarScope = true) :=
  c5_scope_declaration_empty_iff [] c5VarScope [⟨0, "int m_x;", true⟩] (by decide)

/-- A scope with no members at all. -/
def c5EmptyScope : CppClassScope := .mk none none none [] [] [] [] [] []

/-- A scope whose only member is the empty nested scope. -/
def c5OuterScope : CppClassScope := .mk none none none [] [] [] [] [] [c5EmptyScope]

/-- Counterexample for C5 as stated: this scope has a member (one
nested scope), yet its declaration-pass output is empty. -/
theorem c5_empty_nested_scope_refutes :
    scopeRenderToStringDeclaration [] c5OuterScope = .ok [] ∧
    c5OuterScope.internal_scopes.length = 1 := by
  refine ⟨by decide, by decide⟩
